import Mathlib

/-!
Shallow embedding of `src/main.py` (the `CarbonCycle` dashboard): the
schedule resolver, the route cache, the unit-conversion of efficiency
inputs, the emissions calculator and the summary aggregator, together with
theorems checking the specification's claims against them.

Modelling conventions:
* pint quantities are modelled as exact rationals in fixed base units
  (meters, seconds, miles per US gallon, US gallons per hour, pounds);
  1 mile = 1609.344 m, 1 US gallon = 3.785411784 L,
  1 imperial gallon = 4.54609 L, 1 km = 1000 m, 1 hour = 3600 s.
* datetime values are modelled as minutes since an epoch placed at a
  Monday 00:00, so day-number mod 7 agrees with Python's date.weekday()
  (Monday = 0); truncation of seconds and microseconds is implicit.
* Python dicts whose keys are only ever inserted when absent (as in the
  source) are association lists with first-match lookup.
-/

namespace CarbonCycle

/-- Constant from line 38 of main.py: CO2_PER_GALLON = 19.60 (pounds). -/
def CO2_PER_GALLON : ℚ := 19.60

/-- Exact number of meters in one mile. -/
def METERS_PER_MILE : ℚ := 1609.344

/-- Exact number of liters in one US gallon. -/
def LITERS_PER_US_GALLON : ℚ := 3.785411784

/-- Exact number of liters in one imperial gallon. -/
def LITERS_PER_IMPERIAL_GALLON : ℚ := 4.54609

/-- Embedding of method _calculate_emissions (main.py lines 201-211).
Inputs are the magnitudes the method actually receives in _trigger_update:
distance in meters, idle_time in seconds, efficiency in miles per US
gallon, idling_efficiency in US gallons per hour.  The pint conversions
distance.to(miles) and idle_time.to(hours) are the exact divisions by
METERS_PER_MILE and 3600.  Result is in pounds of CO2. -/
def calculate_emissions (distance idle_time efficiency idling_efficiency : ℚ) : ℚ :=
  let travel_gallons_used := distance / METERS_PER_MILE / efficiency
  let idle_gallons_used := idle_time / 3600 * idling_efficiency
  (travel_gallons_used + idle_gallons_used) * CO2_PER_GALLON

/-- The unit families of EFFICIENCY_UNITS (main.py lines 39-44). -/
inductive EfficiencyUnit where
  | mpg_us
  | mpg_imp
  | km_per_l
  | l_per_100km
deriving DecidableEq

/-- The pint quantity named by each EFFICIENCY_UNITS value, expressed in
the canonical basis miles per US gallon.  The L/100 km entry is the
string "100 * kilometers per liter", i.e. one hundred times the km/L
quantity. -/
def efficiency_unit_qty : EfficiencyUnit → ℚ
  | .mpg_us => 1
  | .mpg_imp => LITERS_PER_US_GALLON / LITERS_PER_IMPERIAL_GALLON
  | .km_per_l => (1000 / METERS_PER_MILE) * LITERS_PER_US_GALLON
  | .l_per_100km => 100 * ((1000 / METERS_PER_MILE) * LITERS_PER_US_GALLON)

/-- Embedding of the efficiency conversion in _trigger_update (main.py
lines 302-305): efficiency = value * ureg(units), overwritten with
ureg(units) / value exactly when the selected family is "L/100 km". -/
def to_canonical_efficiency (u : EfficiencyUnit) (magnitude : ℚ) : ℚ :=
  if u = .l_per_100km then efficiency_unit_qty u / magnitude
  else magnitude * efficiency_unit_qty u

/-- Error raised (or, per the specification, signalled) by the summary
step. The source can only raise zeroDivisionError; aggregationError is
the condition the specification's taxonomy asks for. -/
inductive SummaryError where
  | zeroDivisionError
  | aggregationError
deriving DecidableEq

/-- The five aggregate figures produced by _format_summary, plus the
num_days count it derives. -/
structure Summary where
  one_way : ℚ
  round_trip : ℚ
  week : ℚ
  month : ℚ
  year : ℚ
  num_days : ℕ
deriving DecidableEq

/-- num_days = int(len(dt_emissions) / 2) (main.py line 214); for a
non-negative length, Python's int() truncation is natural-number
division. -/
def num_days (dt_emissions : List (String × ℚ)) : ℕ :=
  dt_emissions.length / 2

/-- week_emissions = sum(dt_emissions.values()) (main.py line 215). -/
def week_emissions (dt_emissions : List (String × ℚ)) : ℚ :=
  (dt_emissions.map Prod.snd).sum

/-- Embedding of the aggregation head of _format_summary (main.py lines
213-219).  When num_days = 0 the Python expression
week_emissions / num_days / 2 raises ZeroDivisionError, modelled as the
error branch; otherwise the five figures are computed exactly as in the
source. -/
def format_summary (dt_emissions : List (String × ℚ)) : Except SummaryError Summary :=
  let n := num_days dt_emissions
  let week := week_emissions dt_emissions
  if n = 0 then .error .zeroDivisionError
  else
    let one_way := week / (n : ℚ) / 2
    .ok ⟨one_way, one_way * 2, week, 4 * week, 52 * week, n⟩

/-- The commute day shown for a slot label: _format_summary splits
day_label on the first space (main.py line 237) and uses the first
component, i.e. the characters before the first space. -/
def commute_day (day_label : String) : String :=
  String.mk (day_label.data.takeWhile fun c => c ≠ ' ')

/-- The list of commute days of the slot labels present in the input. -/
def commute_days (dt_emissions : List (String × ℚ)) : List String :=
  dt_emissions.map fun p => commute_day p.1

/-- The number of distinct commute days present in the input. -/
def distinct_commute_days (dt_emissions : List (String × ℚ)) : ℕ :=
  (commute_days dt_emissions).dedup.length

/-- A cache key: the loc_label string built in _trigger_update (line 312)
paired with a slot's day_label string (line 323). -/
abbrev Key := String × String

/-- A Route Sample as stored by the source: the integer distance in
meters and the integer in-traffic duration in seconds returned by
_call_gmap. -/
abbrev Sample := ℕ × ℕ

/-- loc_label = f-string joining home and work addresses with a space
(main.py line 312). -/
def loc_label (home work : String) : String := home ++ " " ++ work

/-- First-match lookup in an association list, the model of Python dict
indexing for the source's caches (keys are only inserted when absent). -/
def dict_lookup : List (Key × Sample) → Key → Option Sample
  | [], _ => none
  | (k0, v) :: rest, k => if k0 = k then some v else dict_lookup rest k

/-- Embedding of the per-slot cache consult in _trigger_update (main.py
lines 325-329): if day_label is cached, its Route Sample is reused;
otherwise _call_gmap is invoked (modelled by fetch, which may fail) and,
on success only, the result is stored.  The returned triple is the
outcome (or the propagated error), the cache afterwards, and how many
times fetch was invoked. -/
def get_or_fetch (locs : List (Key × Sample)) (k : Key)
    (fetch : Key → Except String Sample) :
    Except String Sample × List (Key × Sample) × ℕ :=
  match dict_lookup locs k with
  | some s => (.ok s, locs, 0)
  | none =>
    match fetch k with
    | .ok s => (.ok s, (k, s) :: locs, 1)
    | .error e => (.error e, locs, 1)

/-- Embedding of the slot loop of _trigger_update (main.py lines
316-333) at the cache level: each active slot key is resolved through
get_or_fetch; a fetch failure propagates immediately (the Python
exception aborts the loop), returning the cache as mutated so far and no
per-slot result list. -/
def resolve_slots (fetch : Key → Except String Sample) :
    List (Key × Sample) → List Key →
    List (Key × Sample) × Except String (List (Key × Sample))
  | locs, [] => (locs, .ok [])
  | locs, k :: ks =>
    match get_or_fetch locs k fetch with
    | (.ok s, locs1, _) =>
      match resolve_slots fetch locs1 ks with
      | (locs2, .ok rest) => (locs2, .ok ((k, s) :: rest))
      | (locs2, .error e) => (locs2, .error e)
    | (.error e, locs1, _) => (locs1, .error e)

/-- The element of the distance-matrix response that _call_gmap reads
(main.py lines 196-198): the mandatory distance value in meters and the
optional duration_in_traffic value in seconds. -/
structure DistanceMatrixElement where
  distance_value : ℕ
  duration_in_traffic : Option ℕ
deriving DecidableEq

/-- Embedding of the tail of _call_gmap (main.py lines 196-199):
distance = element["distance"]["value"] and idle_time =
element.get("duration_in_traffic", dict of value 0)["value"]. -/
def call_gmap (element : DistanceMatrixElement) : ℕ × ℕ :=
  (element.distance_value, element.duration_in_traffic.getD 0)

/-- Embedding of the 12-hour conversion inside _get_dt (main.py lines
344-349): on "PM" the hour gains 12 and, when the sum passes 23, loses
24 again; on any other suffix the hour is kept. -/
def hour24 (hour : ℕ) (apm : String) : ℕ :=
  if apm = "PM" then
    let h := hour + 12
    if h > 23 then h - 24 else h
  else hour

/-- Embedding of static method _next_weekday (main.py lines 357-362)
on day numbers: days_ahead = weekday - dt.weekday(), bumped by 7 when
non-positive, then added to the day.  Day numbers are days since a
Monday, so weekday() is day mod 7. -/
def next_weekday (day : ℕ) (weekday : ℕ) : ℕ :=
  let days_ahead : ℤ := (weekday : ℤ) - ((day % 7 : ℕ) : ℤ)
  let days_ahead := if days_ahead ≤ 0 then days_ahead + 7 else days_ahead
  day + days_ahead.toNat

/-- Embedding of _get_dt (main.py lines 343-355) over minutes since the
epoch (a Monday 00:00): the 12-hour time is converted with hour24,
tomorrow is one day after now's date, the resolved day is
next_weekday(tomorrow, weekday), and replace(hour, minute) sets the time
of day of that date. -/
def get_dt (now : ℕ) (weekday hour12 minute : ℕ) (apm : String) : ℕ :=
  let hour := hour24 hour12 apm
  let tomorrow := now / 1440 + 1
  next_weekday tomorrow weekday * 1440 + hour * 60 + minute

/-- The in-memory cache seeding of CarbonCycle.__init__ (main.py lines
59-62): self.locs starts empty and is updated from the pickled snapshot
when the snapshot file exists. -/
def init_locs (snapshot : Option (List (Key × Sample))) : List (Key × Sample) :=
  match snapshot with
  | some cached => cached
  | none => []

/-- The persistence step at the end of _trigger_update (main.py lines
335-337), as a transition on the durable snapshot: when the snapshot
file does not exist the whole in-memory cache is pickled to it, and when
it exists nothing is written. -/
def end_of_pass (snapshot : Option (List (Key × Sample)))
    (locs : List (Key × Sample)) : Option (List (Key × Sample)) :=
  match snapshot with
  | some s => some s
  | none => some locs

/-- The durable snapshot after a run of completed resolution passes,
given the in-memory cache each pass ends with. -/
def run_passes (snapshot : Option (List (Key × Sample))) :
    List (List (Key × Sample)) → Option (List (Key × Sample))
  | [] => snapshot
  | locs :: rest => run_passes (end_of_pass snapshot locs) rest

/-- How many times the run of passes writes the durable snapshot: a pass
writes exactly when the snapshot is absent as it completes. -/
def write_count (snapshot : Option (List (Key × Sample))) :
    List (List (Key × Sample)) → ℕ
  | [] => 0
  | locs :: rest =>
    (match snapshot with | some _ => 0 | none => 1)
      + write_count (end_of_pass snapshot locs) rest

end CarbonCycle


namespace CarbonCycle

/-- C1: for every distance (in miles), idle duration (in hours), fuel
economy (miles per US gallon) and idling rate (US gallons per hour), the
emissions calculator returns
(distance / fuel_economy + idle_duration * idling_rate) * 19.60 pounds
of CO2; in particular 10 miles at 25 mpg with no idling at rate 0.3
gives exactly 7.84 lb.  The calculator receives distance in meters and
idle time in seconds, as _trigger_update passes them. -/
theorem calculate_emissions_spec (d_miles i_hours eff rate : ℚ) :
    calculate_emissions (d_miles * METERS_PER_MILE) (i_hours * 3600) eff rate
      = (d_miles / eff + i_hours * rate) * (19.60 : ℚ) ∧
    calculate_emissions (10 * METERS_PER_MILE) 0 25 (3/10) = 7.84 := by
  constructor
  · simp only [calculate_emissions, CO2_PER_GALLON]
    rw [mul_div_cancel_right₀ _ (by norm_num [METERS_PER_MILE] : METERS_PER_MILE ≠ 0),
      mul_div_cancel_right₀ _ (by norm_num : (3600 : ℚ) ≠ 0)]
  · norm_num [calculate_emissions, METERS_PER_MILE, CO2_PER_GALLON]

/-- C4: the claim says the 12-hour conversion maps 12 AM to hour 0 and
12 PM to hour 12.  The code does the opposite: its PM branch turns
12 PM into hour 24 and then back to 0, while 12 AM is left untouched at
12, so midnight and noon are swapped. -/
theorem hour24_twelve_swapped :
    hour24 12 "AM" = 12 ∧ hour24 12 "PM" = 0 := by
  constructor <;> decide

/-- C5: the claim says that on an empty per-slot emissions input the
aggregator signals an "insufficient schedule" AggregationError.  The
code instead evaluates week_emissions / num_days / 2 with num_days = 0,
which raises ZeroDivisionError. -/
theorem format_summary_empty_zero_division :
    format_summary [] = .error .zeroDivisionError ∧
    format_summary [] ≠ .error .aggregationError := by
  refine ⟨rfl, ?_⟩
  intro h
  simp [format_summary, num_days] at h

/-- C7: for every positive magnitude m in the liters-per-100km family
the converted efficiency times m equals the fixed reference quantity,
the quantity of the string "100 * kilometers per liter" (one hundred
times the km-per-liter quantity), while every other fuel-economy family
converts as magnitude times unit quantity. -/
theorem to_canonical_efficiency_inversion (m : ℚ) (h : 0 < m) :
    to_canonical_efficiency .l_per_100km m * m = efficiency_unit_qty .l_per_100km ∧
    efficiency_unit_qty .l_per_100km = 100 * efficiency_unit_qty .km_per_l ∧
    ∀ u : EfficiencyUnit, u ≠ .l_per_100km →
      to_canonical_efficiency u m = m * efficiency_unit_qty u := by
  refine ⟨?_, rfl, ?_⟩
  · simp only [to_canonical_efficiency, if_pos]
    exact div_mul_cancel₀ _ (ne_of_gt h)
  · intro u hu
    simp only [to_canonical_efficiency, if_neg hu]

/-- Witness for C7 at the concrete magnitude 2. -/
theorem to_canonical_efficiency_inversion_witness :
    (0 : ℚ) < 2 ∧
    to_canonical_efficiency .l_per_100km 2 * 2 = efficiency_unit_qty .l_per_100km ∧
    to_canonical_efficiency .mpg_us 2 = 2 * efficiency_unit_qty .mpg_us := by
  refine ⟨by norm_num, (to_canonical_efficiency_inversion 2 (by norm_num)).1, ?_⟩
  exact (to_canonical_efficiency_inversion 2 (by norm_num)).2.2 .mpg_us (by decide)

/-- C10: when the routing response element has no duration_in_traffic
field, _call_gmap returns the reported distance with an idle duration of
exactly 0 seconds, and with idle time 0 the emissions reduce to the pure
travel term, independent of the idling rate. -/
theorem call_gmap_no_traffic (element : DistanceMatrixElement)
    (h : element.duration_in_traffic = none) (eff rate rate2 : ℚ) :
    call_gmap element = (element.distance_value, 0) ∧
    calculate_emissions (element.distance_value) 0 eff rate
      = (element.distance_value : ℚ) / METERS_PER_MILE / eff * CO2_PER_GALLON ∧
    calculate_emissions (element.distance_value) 0 eff rate
      = calculate_emissions (element.distance_value) 0 eff rate2 := by
  refine ⟨?_, ?_, ?_⟩
  · simp only [call_gmap, h, Option.getD_none]
  · simp only [calculate_emissions]
    norm_num
  · simp only [calculate_emissions]
    norm_num

/-- Witness for C10 at a concrete element of distance 5000 m with no
duration_in_traffic field. -/
theorem call_gmap_no_traffic_witness :
    (⟨5000, none⟩ : DistanceMatrixElement).duration_in_traffic = none ∧
    call_gmap ⟨5000, none⟩ = (5000, 0) := by
  exact ⟨rfl, (call_gmap_no_traffic ⟨5000, none⟩ rfl 25 (3/10) 1).1⟩

/-- C2: when the first lookup of a key misses and its fetch succeeds,
the Route Sample is stored and fetch was invoked exactly once; the
stored entry survives insertions under other keys (later passes with
other slots changed), and any later call that finds the key cached
returns the stored sample with zero further fetch invocations,
whatever fetch function it is handed. -/
theorem get_or_fetch_idempotent (locs : List (Key × Sample)) (k : Key)
    (fetch fetch2 : Key → Except String Sample) (s : Sample)
    (h1 : dict_lookup locs k = none) (h2 : fetch k = .ok s) :
    get_or_fetch locs k fetch = (.ok s, (k, s) :: locs, 1) ∧
    dict_lookup ((k, s) :: locs) k = some s ∧
    (∀ k2 v2 locs2, k2 ≠ k → dict_lookup locs2 k = some s →
      dict_lookup ((k2, v2) :: locs2) k = some s) ∧
    (∀ locs2, dict_lookup locs2 k = some s →
      get_or_fetch locs2 k fetch2 = (.ok s, locs2, 0)) := by
  refine ⟨?_, ?_, ?_, ?_⟩
  · simp only [get_or_fetch, h1, h2]
  · simp [dict_lookup]
  · intro k2 v2 locs2 hne hl
    simp only [dict_lookup, if_neg hne]
    exact hl
  · intro locs2 hl
    simp only [get_or_fetch, hl]

/-- Witness for C2: a concrete first fetch for (Home Work,
Mon 08:00 AM) stores the sample, and a second call on a cache that has
since also gained a Wed 05:30 PM entry returns the stored sample with
zero invocations even though its fetch function only fails. -/
theorem get_or_fetch_idempotent_witness :
    dict_lookup [] (loc_label "Home" "Work", "Mon 08:00 AM") = none ∧
    get_or_fetch [] (loc_label "Home" "Work", "Mon 08:00 AM")
        (fun _ => .ok (100, 60))
      = (.ok (100, 60), [((loc_label "Home" "Work", "Mon 08:00 AM"), (100, 60))], 1) ∧
    get_or_fetch [((loc_label "Home" "Work", "Wed 05:30 PM"), (7, 8)),
        ((loc_label "Home" "Work", "Mon 08:00 AM"), (100, 60))]
        (loc_label "Home" "Work", "Mon 08:00 AM") (fun _ => .error "down")
      = (.ok (100, 60),
         [((loc_label "Home" "Work", "Wed 05:30 PM"), (7, 8)),
          ((loc_label "Home" "Work", "Mon 08:00 AM"), (100, 60))], 0) := by
  have h := get_or_fetch_idempotent [] (loc_label "Home" "Work", "Mon 08:00 AM")
    (fun _ => .ok (100, 60)) (fun _ => .error "down") (100, 60) rfl rfl
  exact ⟨rfl, h.1, h.2.2.2 _ (by decide)⟩

/-- C8: when an uncached slot's fetch fails, the failure propagates as
is with exactly one invocation and the cache is returned unchanged (so
no entry is stored for the key), and the slot loop of the pass aborts
with that error, producing no per-slot result list. -/
theorem get_or_fetch_failure_propagates (locs : List (Key × Sample)) (k : Key)
    (fetch : Key → Except String Sample) (e : String) (ks : List Key)
    (h1 : dict_lookup locs k = none) (h2 : fetch k = .error e) :
    get_or_fetch locs k fetch = (.error e, locs, 1) ∧
    resolve_slots fetch locs (k :: ks) = (locs, .error e) := by
  have hg : get_or_fetch locs k fetch = (.error e, locs, 1) := by
    simp only [get_or_fetch, h1, h2]
  refine ⟨hg, ?_⟩
  simp only [resolve_slots, hg]

/-- Witness for C8 with a concrete always-failing fetch. -/
theorem get_or_fetch_failure_propagates_witness :
    dict_lookup [] (loc_label "Home" "Work", "Mon 08:00 AM") = none ∧
    get_or_fetch [] (loc_label "Home" "Work", "Mon 08:00 AM")
        (fun _ => .error "REQUEST_DENIED")
      = (.error "REQUEST_DENIED", [], 1) ∧
    resolve_slots (fun _ => .error "REQUEST_DENIED") []
        [(loc_label "Home" "Work", "Mon 08:00 AM"),
         (loc_label "Home" "Work", "Mon 05:30 PM")]
      = ([], .error "REQUEST_DENIED") := by
  have h := get_or_fetch_failure_propagates [] (loc_label "Home" "Work", "Mon 08:00 AM")
    (fun _ => .error "REQUEST_DENIED") "REQUEST_DENIED"
    [(loc_label "Home" "Work", "Mon 05:30 PM")] rfl rfl
  exact ⟨rfl, h.1, h.2⟩

/-- A snapshot that already exists is never touched by later passes and
causes no writes. -/
theorem run_passes_of_some (s : List (Key × Sample))
    (passes : List (List (Key × Sample))) :
    run_passes (some s) passes = some s ∧ write_count (some s) passes = 0 := by
  induction passes with
  | nil => exact ⟨rfl, rfl⟩
  | cons locs rest ih =>
    simpa only [run_passes, write_count, end_of_pass, Nat.zero_add] using ih

/-- C9: over any run of completed resolution passes the durable snapshot
is written at most once; if it existed at startup it is never
overwritten and never written again, and if it was absent it is written
by exactly the first completed pass, with that pass's in-memory cache,
and is then never overwritten. -/
theorem snapshot_write_once (snapshot : Option (List (Key × Sample)))
    (passes : List (List (Key × Sample))) :
    write_count snapshot passes ≤ 1 ∧
    (∀ s, snapshot = some s →
      run_passes snapshot passes = some s ∧ write_count snapshot passes = 0) ∧
    (∀ locs rest, snapshot = none → passes = locs :: rest →
      run_passes snapshot passes = some locs ∧ write_count snapshot passes = 1) := by
  match snapshot with
  | some s =>
    refine ⟨?_, ?_, ?_⟩
    · exact (run_passes_of_some s passes).2 ▸ Nat.zero_le 1
    · intro s2 hs2
      cases hs2
      exact run_passes_of_some _ passes
    · intro locs rest hnone
      cases hnone
  | none =>
    match passes with
    | [] =>
      refine ⟨by simp [write_count], ?_, ?_⟩
      · intro s2 hs2
        cases hs2
      · intro locs rest _ hp
        cases hp
    | locs :: rest =>
      have h := run_passes_of_some locs rest
      refine ⟨?_, ?_, ?_⟩
      · simp only [write_count, end_of_pass, h.2]
        omega
      · intro s2 hs2
        cases hs2
      · intro locs2 rest2 _ hp
        cases hp
        refine ⟨?_, ?_⟩
        · simp only [run_passes, end_of_pass, h.1]
        · simp only [write_count, end_of_pass, h.2]

/-- Witness for C9: a pre-existing snapshot survives a pass unwritten,
and an absent snapshot is written exactly once, by the first of three
passes, with that pass's cache. -/
theorem snapshot_write_once_witness :
    run_passes (some [(("a b", "Mon 08:00 AM"), (1, 2))])
        [[(("c d", "Tue 09:00 AM"), (3, 4))]]
      = some [(("a b", "Mon 08:00 AM"), (1, 2))] ∧
    write_count (some [(("a b", "Mon 08:00 AM"), (1, 2))])
        [[(("c d", "Tue 09:00 AM"), (3, 4))]] = 0 ∧
    run_passes none [[(("c d", "Tue 09:00 AM"), (3, 4))], [], []]
      = some [(("c d", "Tue 09:00 AM"), (3, 4))] ∧
    write_count none [[(("c d", "Tue 09:00 AM"), (3, 4))], [], []] = 1 := by
  have h1 := (snapshot_write_once (some [(("a b", "Mon 08:00 AM"), (1, 2))])
    [[(("c d", "Tue 09:00 AM"), (3, 4))]]).2.1 _ rfl
  have h2 := (snapshot_write_once none
    [[(("c d", "Tue 09:00 AM"), (3, 4))], [], []]).2.2
    [(("c d", "Tue 09:00 AM"), (3, 4))] [[], []] rfl rfl
  exact ⟨h1.1, h1.2, h2.1, h2.2⟩

/-- For the clock hours the widgets offer (at most 12), the converted
hour stays below 24. -/
theorem hour24_le_23 (hh : ℕ) (apm : String) (h : hh ≤ 12) :
    hour24 hh apm ≤ 23 := by
  simp only [hour24]
  split_ifs <;> omega

/-- The day _next_weekday resolves to lies between one and seven days
after its starting day. -/
theorem next_weekday_bounds (day w : ℕ) (hw : w ≤ 6) :
    day + 1 ≤ next_weekday day w ∧ next_weekday day w ≤ day + 7 := by
  simp only [next_weekday]
  have h7 : day % 7 < 7 := Nat.mod_lt _ (by norm_num)
  split_ifs with h <;> constructor <;> omega

/-- C3 counterexample: with now a Monday 00:00 (minute 0 of the epoch),
resolving Tuesday 01:00 AM lands 8 days and one hour ahead, which is in
the future but more than 7 days ahead, refuting the claimed 7-day
bound. -/
theorem get_dt_exceeds_seven_days :
    0 < get_dt 0 1 1 0 "AM" ∧ ¬ get_dt 0 1 1 0 "AM" ≤ 0 + 7 * 1440 := by
  constructor <;> decide

/-- C3 (amended): for every weekday index and every on-offer clock time
(hour at most 12, minute at most 59), the resolved timestamp is strictly
in the future and less than 9 days ahead of now; the resolver starts
from tomorrow, so it can land up to 8 days plus a time of day ahead. -/
theorem get_dt_future_bound (now w hh mm : ℕ) (apm : String)
    (hw : w ≤ 6) (hh12 : hh ≤ 12) (hmm : mm ≤ 59) :
    now < get_dt now w hh mm apm ∧ get_dt now w hh mm apm < now + 9 * 1440 := by
  have hhour := hour24_le_23 hh apm hh12
  have hnw := next_weekday_bounds (now / 1440 + 1) w hw
  simp only [get_dt]
  omega

/-- Witness for the amended C3 at a concrete now and slot. -/
theorem get_dt_future_bound_witness :
    (3 ≤ 6 ∧ 8 ≤ 12 ∧ 0 ≤ 59) ∧
    5000 < get_dt 5000 3 8 0 "AM" ∧ get_dt 5000 3 8 0 "AM" < 5000 + 9 * 1440 := by
  exact ⟨by decide,
    get_dt_future_bound 5000 3 8 0 "AM" (by decide) (by decide) (by decide)⟩

/-- A list in which every member occurs exactly twice is twice as long
as its deduplication. -/
theorem length_eq_twice_dedup_of_count_two (ds : List String)
    (h : ∀ d ∈ ds, ds.count d = 2) :
    ds.length = 2 * ds.dedup.length := by
  have h1 := List.sum_map_count_dedup_eq_length ds
  have h2 : ds.dedup.map (fun x => ds.count x) = ds.dedup.map (fun _ => 2) :=
    List.map_congr_left (fun a ha => h a (List.mem_dedup.mp ha))
  rw [h2, List.map_const', List.sum_const_nat] at h1
  omega

/-- C6 counterexample: a Monday with two distinct slot labels and a
Tuesday whose leave-home and leave-work times coincide (one slot label)
give num_days = 1, although two distinct commute days are present. -/
theorem num_days_ne_distinct_commute_days :
    num_days [("Mon 08:00 AM", (1 : ℚ)), ("Mon 05:30 PM", 1), ("Tue 09:00 AM", 1)] = 1 ∧
    distinct_commute_days
      [("Mon 08:00 AM", (1 : ℚ)), ("Mon 05:30 PM", 1), ("Tue 09:00 AM", 1)] = 2 := by
  constructor <;> decide

/-- C6 (amended): for every non-empty per-slot emissions input in which
every commute day present contributes exactly two distinct slot labels,
num_days equals the number of distinct commute days present and the
aggregator succeeds with one_way equal to the sum of all slot emissions
divided by num_days divided by 2 (and the remaining figures derived from
it as in the source). -/
theorem format_summary_two_slots_per_day (l : List (String × ℚ))
    (hne : l ≠ [])
    (hcount : ∀ d ∈ commute_days l, (commute_days l).count d = 2) :
    num_days l = distinct_commute_days l ∧
    format_summary l = .ok
      ⟨week_emissions l / (distinct_commute_days l : ℚ) / 2,
       week_emissions l / (distinct_commute_days l : ℚ) / 2 * 2,
       week_emissions l, 4 * week_emissions l, 52 * week_emissions l,
       distinct_commute_days l⟩ := by
  have hlen : (commute_days l).length = l.length := List.length_map _ _
  have hkey := length_eq_twice_dedup_of_count_two (commute_days l) hcount
  have hnum : num_days l = distinct_commute_days l := by
    simp only [num_days, distinct_commute_days]
    omega
  have hpos : distinct_commute_days l ≠ 0 := by
    simp only [distinct_commute_days]
    intro h0
    rw [List.length_eq_zero] at h0
    rw [List.dedup_eq_nil] at h0
    have : l = [] := by
      simpa only [commute_days, List.map_eq_nil_iff] using h0
    exact hne this
  refine ⟨hnum, ?_⟩
  simp only [format_summary, hnum]
  rw [if_neg hpos]

/-- Witness for the amended C6 on a concrete two-day, four-slot week. -/
theorem format_summary_two_slots_per_day_witness :
    num_days [("Mon 08:00 AM", (1 : ℚ)), ("Mon 05:30 PM", 2),
        ("Tue 08:00 AM", 3), ("Tue 05:30 PM", 4)]
      = distinct_commute_days [("Mon 08:00 AM", (1 : ℚ)), ("Mon 05:30 PM", 2),
        ("Tue 08:00 AM", 3), ("Tue 05:30 PM", 4)] ∧
    format_summary [("Mon 08:00 AM", (1 : ℚ)), ("Mon 05:30 PM", 2),
        ("Tue 08:00 AM", 3), ("Tue 05:30 PM", 4)] = .ok
      ⟨week_emissions [("Mon 08:00 AM", (1 : ℚ)), ("Mon 05:30 PM", 2),
          ("Tue 08:00 AM", 3), ("Tue 05:30 PM", 4)]
        / (distinct_commute_days [("Mon 08:00 AM", (1 : ℚ)), ("Mon 05:30 PM", 2),
            ("Tue 08:00 AM", 3), ("Tue 05:30 PM", 4)] : ℚ) / 2,
       week_emissions [("Mon 08:00 AM", (1 : ℚ)), ("Mon 05:30 PM", 2),
          ("Tue 08:00 AM", 3), ("Tue 05:30 PM", 4)]
        / (distinct_commute_days [("Mon 08:00 AM", (1 : ℚ)), ("Mon 05:30 PM", 2),
            ("Tue 08:00 AM", 3), ("Tue 05:30 PM", 4)] : ℚ) / 2 * 2,
       week_emissions [("Mon 08:00 AM", (1 : ℚ)), ("Mon 05:30 PM", 2),
          ("Tue 08:00 AM", 3), ("Tue 05:30 PM", 4)],
       4 * week_emissions [("Mon 08:00 AM", (1 : ℚ)), ("Mon 05:30 PM", 2),
          ("Tue 08:00 AM", 3), ("Tue 05:30 PM", 4)],
       52 * week_emissions [("Mon 08:00 AM", (1 : ℚ)), ("Mon 05:30 PM", 2),
          ("Tue 08:00 AM", 3), ("Tue 05:30 PM", 4)],
       distinct_commute_days [("Mon 08:00 AM", (1 : ℚ)), ("Mon 05:30 PM", 2),
          ("Tue 08:00 AM", 3), ("Tue 05:30 PM", 4)]⟩ := by
  exact format_summary_two_slots_per_day _ (by simp) (by decide)

end CarbonCycle
